import Mathlib

/-!
Shallow embedding of the LED-Panel-ESP12F firmware logic: the timestamp
arithmetic, HTTP-code classification, debounced mute button, WiFi
connectivity handling and the scheduler loop of the optimized firmware
(`loop` / `checkWiFiConnection` / `handleMuteToggle` / `checkSiteStatus`),
the simple firmware verdict (`checkSite` in `main.cpp`), and the test-suite
classifier (`isSiteUp` / `getStatusDescription` in `test_http_codes.cpp`).
Hardware collaborators (display, radio, HTTP client, buzzer) are modelled
as inputs and emitted effects.
-/

namespace LEDPanel

/-- Modulus of the unsigned 32-bit millisecond counter (`millis()`). -/
def UINT32_MOD : Nat := 4294967296

/-- Timing constants from the optimized firmware. -/
def CHECK_INTERVAL : Nat := 30000

/-- Button debounce time (ms). -/
def DEBOUNCE_DELAY : Nat := 200

/-- WiFi reconnect attempt interval (ms). -/
def RECONNECT_INTERVAL : Nat := 60000

/-- Overflow-safe elapsed time: the unsigned wraparound subtraction
`now - start` on 32-bit timestamps, as written inline in the firmware
(`now - state.lastCheckTime`, `now - state.lastReconnect`,
`now - state.lastButtonPress`).  Arguments are arbitrary naturals reduced
mod 2^32, matching u32 arithmetic. -/
def elapsed (start now : Nat) : Nat :=
  (now % UINT32_MOD + (UINT32_MOD - start % UINT32_MOD)) % UINT32_MOD

/-- The interval predicate used by every scheduler guard:
`elapsed(lastTime, now) >= interval`. -/
def intervalPassed (lastTime now interval : Nat) : Bool :=
  decide (interval ≤ elapsed lastTime now)

/-- Verdict function `isSiteUp` from `test_http_codes.cpp`:
negative codes are down, codes below 500 are up, 5xx are down. -/
def isSiteUp (httpCode : Int) : Bool :=
  if httpCode < 0 then false
  else decide (httpCode < 500)

/-- Status label function `getStatusDescription` from `test_http_codes.cpp`. -/
def getStatusDescription (httpCode : Int) : String :=
  if httpCode < 0 then "Connection Error"
  else if httpCode < 200 then "Informational"
  else if httpCode < 300 then "Success"
  else if httpCode < 400 then "Redirect"
  else if httpCode < 500 then "Client Error"
  else "Server Error"

/-- The site-status classification: up/down verdict together with the label. -/
def classify (code : Int) : Bool × String :=
  (isSiteUp code, getStatusDescription code)

/-- Verdict of `checkSiteStatus` in the optimized firmware, as a function of
whether `http.begin` succeeded and of the code returned by `http.GET()`:
`if (httpCode < 0) return false; return (httpCode < 500);`. -/
def checkSiteStatus (beginOk : Bool) (httpCode : Int) : Bool :=
  if !beginOk then false
  else if httpCode < 0 then false
  else decide (httpCode < 500)

/-- Verdict of `checkSite` in the simple firmware (`main.cpp`):
`if (code <= 0) return false; return (code < 500);`. -/
def checkSite (beginOk : Bool) (code : Int) : Bool :=
  if !beginOk then false
  else if code ≤ 0 then false
  else decide (code < 500)

/-- The mutable state of the optimized firmware: the `State` struct plus the
volatile `muteToggleRequest` flag set by the button ISR. -/
structure MonitorState where
  isMuted : Bool
  siteIsUp : Bool
  wifiConnected : Bool
  messageScrolling : Bool
  lastCheckTime : Nat
  lastReconnect : Nat
  lastButtonPress : Nat
  muteToggleRequest : Bool
  deriving DecidableEq, Repr

/-- Observable collaborator calls emitted during a tick. -/
inductive Effect where
  | displayAnimateStep
  | displayClear
  | showMsg (msg : String)
  | showPing
  | buzzTone
  | buzzNoTone
  | buzzToneBrief
  | reconnectCall
  | httpGet
  deriving DecidableEq, Repr

/-- `playAlertTone`: `tone(BUZZ_PIN, 2000)` when enabled, `noTone` otherwise. -/
def playAlertTone (enable : Bool) : Effect :=
  if enable then Effect.buzzTone else Effect.buzzNoTone

/-- Radio status samples consumed by `checkWiFiConnection` during one tick:
the status read at entry and the status re-sampled after `WiFi.reconnect()`. -/
structure RadioInput where
  status : Bool
  statusAfterReconnect : Bool
  deriving DecidableEq, Repr

/-- External inputs consumed by one iteration of `loop`. -/
structure TickInput where
  animateDone : Bool
  radio : RadioInput
  httpBeginOk : Bool
  httpCode : Int
  deriving DecidableEq, Repr

/-- `handleMuteToggle` from the optimized firmware.  Inside the debounce
window the pending flag is cleared and nothing else happens; otherwise the
flag is cleared, `lastButtonPress` is set to `now`, `isMuted` flips, the
matching message is shown (with a confirmation beep when unmuting) and the
transient message starts scrolling. -/
def handleMuteToggle (s : MonitorState) (now : Nat) : MonitorState × List Effect :=
  if elapsed s.lastButtonPress now < DEBOUNCE_DELAY then
    ({ s with muteToggleRequest := false }, [])
  else
    ({ s with lastButtonPress := now % UINT32_MOD
              muteToggleRequest := false
              isMuted := !s.isMuted
              messageScrolling := true },
     if !s.isMuted then [Effect.buzzNoTone, Effect.showMsg "Muted"]
     else [Effect.showMsg "Sound On", Effect.buzzToneBrief])

/-- `checkWiFiConnection` from the optimized firmware: detect a lost
connection (alerting unless muted), and while the radio reports
not-connected attempt a reconnect every `RECONNECT_INTERVAL` ms, updating
`lastReconnect` first and marking the connection restored (silencing the
alert) when the re-sampled status is connected. -/
def checkWiFiConnection (s : MonitorState) (now : Nat) (radio : RadioInput) :
    MonitorState × List Effect :=
  let connected := radio.status
  let p1 :=
    if !connected && s.wifiConnected then
      ({ s with wifiConnected := false }, [playAlertTone (!s.isMuted)])
    else (s, ([] : List Effect))
  if !connected then
    if RECONNECT_INTERVAL ≤ elapsed p1.1.lastReconnect now then
      let s2 := { p1.1 with lastReconnect := now % UINT32_MOD }
      if radio.statusAfterReconnect then
        ({ s2 with wifiConnected := true },
         p1.2 ++ [Effect.showMsg "Reconn...", Effect.reconnectCall, playAlertTone false])
      else
        (s2, p1.2 ++ [Effect.showMsg "Reconn...", Effect.reconnectCall])
    else p1
  else p1

/-- Display-animation step at the top of `loop`: when an animation phase
completes while a transient message is scrolling, clear the flag and the
display. -/
def animStep (s : MonitorState) (animateDone : Bool) : MonitorState × List Effect :=
  if animateDone && s.messageScrolling then
    ({ s with messageScrolling := false }, [Effect.displayAnimateStep, Effect.displayClear])
  else (s, [Effect.displayAnimateStep])

/-- Button step of `loop`: consume the pending toggle flag, if any. -/
def buttonStep (s : MonitorState) (now : Nat) : MonitorState × List Effect :=
  if s.muteToggleRequest then handleMuteToggle s now else (s, [])

/-- Site-check step of `loop`: when connected and the check interval has
passed, stamp `lastCheckTime`, show the ping indicator, run the HTTP
request, store the verdict in `siteIsUp`, render the status message and
finish with the alert action (`tone` when down and unmuted, `noTone`
otherwise). -/
def siteCheckStep (s : MonitorState) (now : Nat) (beginOk : Bool) (code : Int) :
    MonitorState × List Effect :=
  if s.wifiConnected && intervalPassed s.lastCheckTime now CHECK_INTERVAL then
    let isUp := checkSiteStatus beginOk code
    ({ s with lastCheckTime := now % UINT32_MOD
              siteIsUp := isUp
              messageScrolling := true },
     [Effect.showPing, Effect.httpGet,
      Effect.showMsg (if isUp then "All Good!" else "SITE DOWN!"),
      if isUp then playAlertTone false else playAlertTone (!s.isMuted)])
  else (s, [])

/-- One iteration of the optimized firmware `loop`, with a single timestamp
`now` for the tick: animation step, debounced button handling, WiFi
connectivity handling, then the periodic site check. -/
def tick (s : MonitorState) (now : Nat) (inp : TickInput) : MonitorState × List Effect :=
  let p1 := animStep s inp.animateDone
  let p2 := buttonStep p1.1 now
  let p3 := checkWiFiConnection p2.1 now inp.radio
  let p4 := siteCheckStep p3.1 now inp.httpBeginOk inp.httpCode
  (p4.1, p1.2 ++ p2.2 ++ p3.2 ++ p4.2)

/-- State at the end of `setup()`: defaults, `wifiConnected` set from the
boot-time connect attempt, the WiFi message scrolling, and
`lastCheckTime = millis() - CHECK_INTERVAL + 5000` (u32 wraparound). -/
def initState (wifiOk : Bool) (t0 : Nat) : MonitorState :=
  { isMuted := false
    siteIsUp := true
    wifiConnected := wifiOk
    messageScrolling := true
    lastCheckTime := (t0 % UINT32_MOD + (UINT32_MOD - 25000)) % UINT32_MOD
    lastReconnect := 0
    lastButtonPress := 0
    muteToggleRequest := false }

/-- Reachable firmware states: a boot state, a button ISR raising the flag,
or one loop iteration from a reachable state. -/
inductive Reachable : MonitorState → Prop where
  | boot (wifiOk : Bool) (t0 : Nat) : Reachable (initState wifiOk t0)
  | buttonEdge {s : MonitorState} : Reachable s →
      Reachable { s with muteToggleRequest := true }
  | step {s : MonitorState} (now : Nat) (inp : TickInput) : Reachable s →
      Reachable (tick s now inp).1

/-- A connected quiescent state: connected, nothing scrolling, all
timestamps zero. -/
def connState : MonitorState :=
  { isMuted := false
    siteIsUp := true
    wifiConnected := true
    messageScrolling := false
    lastCheckTime := 0
    lastReconnect := 0
    lastButtonPress := 0
    muteToggleRequest := false }

/-- Tick inputs for a healthy connected tick: no animation completion,
radio connected, HTTP 200. -/
def quietInput : TickInput :=
  { animateDone := false
    radio := { status := true, statusAfterReconnect := true }
    httpBeginOk := true
    httpCode := 200 }

/-- State after the animation step of a tick. -/
def afterAnim (s : MonitorState) (inp : TickInput) : MonitorState :=
  (animStep s inp.animateDone).1

/-- State after the animation and button steps of a tick. -/
def afterButton (s : MonitorState) (now : Nat) (inp : TickInput) : MonitorState :=
  (buttonStep (afterAnim s inp) now).1

/-- State after the animation, button and connectivity steps of a tick. -/
def afterWifi (s : MonitorState) (now : Nat) (inp : TickInput) : MonitorState :=
  (checkWiFiConnection (afterButton s now inp) now inp.radio).1

/-- The site-check guard of a tick, evaluated on the post-connectivity
state: `state.wifiConnected && (now - state.lastCheckTime >= CHECK_INTERVAL)`. -/
def checkGuard (s : MonitorState) (now : Nat) (inp : TickInput) : Bool :=
  (afterWifi s now inp).wifiConnected &&
    intervalPassed (afterWifi s now inp).lastCheckTime now CHECK_INTERVAL

/-- Boot state when the initial WiFi connect attempt failed at t0 = 0. -/
def bootDisc : MonitorState := initState false 0

/-- Radio samples of a tick in which the radio is down at entry but the
reconnect attempt succeeds. -/
def downUpRadio : RadioInput := { status := false, statusAfterReconnect := true }

/-- Tick inputs: disconnected radio whose reconnect succeeds, HTTP 200. -/
def reconnectOkInput : TickInput :=
  { animateDone := false
    radio := downUpRadio
    httpBeginOk := true
    httpCode := 200 }

/-- Tick inputs: connected radio, animation phase completing, HTTP 200. -/
def animInput : TickInput :=
  { animateDone := true
    radio := { status := true, statusAfterReconnect := true }
    httpBeginOk := true
    httpCode := 200 }

/-! ## Shared helper lemmas -/

/-- Wraparound subtraction on u32 readings recovers the true elapsed time
whenever that elapsed time is below 2^32. -/
theorem elapsed_mod_eq (tStart tNow : Nat) (hle : tStart ≤ tNow)
    (hlt : tNow - tStart < UINT32_MOD) :
    elapsed (tStart % UINT32_MOD) (tNow % UINT32_MOD) = tNow - tStart := by
  simp only [elapsed, UINT32_MOD] at *
  omega

/-- Reducing the start timestamp mod 2^32 does not change `elapsed`. -/
theorem elapsed_mod_left (a b : Nat) :
    elapsed (a % UINT32_MOD) b = elapsed a b := by
  simp only [elapsed, UINT32_MOD]
  omega

/-- A timestamp just stamped with `now` shows zero elapsed time at `now`. -/
theorem elapsed_self_mod (now : Nat) : elapsed (now % UINT32_MOD) now = 0 := by
  simp only [elapsed, UINT32_MOD]
  omega

/-- The alert action is a buzzer effect, never a display or network call. -/
theorem playAlertTone_ne_reconnect (b : Bool) : playAlertTone b ≠ Effect.reconnectCall := by
  cases b <;> simp [playAlertTone]

/-- The alert action is never the HTTP request effect. -/
theorem playAlertTone_ne_http (b : Bool) : playAlertTone b ≠ Effect.httpGet := by
  cases b <;> simp [playAlertTone]

/-- The animation step changes no field except messageScrolling. -/
theorem anim_isMuted (s : MonitorState) (b : Bool) : (animStep s b).1.isMuted = s.isMuted := by
  simp only [animStep]; split_ifs <;> rfl

/-- The animation step preserves siteIsUp. -/
theorem anim_siteIsUp (s : MonitorState) (b : Bool) : (animStep s b).1.siteIsUp = s.siteIsUp := by
  simp only [animStep]; split_ifs <;> rfl

/-- The animation step preserves wifiConnected. -/
theorem anim_wifi (s : MonitorState) (b : Bool) :
    (animStep s b).1.wifiConnected = s.wifiConnected := by
  simp only [animStep]; split_ifs <;> rfl

/-- The animation step preserves lastCheckTime. -/
theorem anim_lastCheck (s : MonitorState) (b : Bool) :
    (animStep s b).1.lastCheckTime = s.lastCheckTime := by
  simp only [animStep]; split_ifs <;> rfl

/-- The animation step preserves lastReconnect. -/
theorem anim_lastReconnect (s : MonitorState) (b : Bool) :
    (animStep s b).1.lastReconnect = s.lastReconnect := by
  simp only [animStep]; split_ifs <;> rfl

/-- The animation step preserves lastButtonPress. -/
theorem anim_lastButton (s : MonitorState) (b : Bool) :
    (animStep s b).1.lastButtonPress = s.lastButtonPress := by
  simp only [animStep]; split_ifs <;> rfl

/-- The animation step preserves the pending-toggle flag. -/
theorem anim_flag (s : MonitorState) (b : Bool) :
    (animStep s b).1.muteToggleRequest = s.muteToggleRequest := by
  simp only [animStep]; split_ifs <;> rfl

/-- The animation step emits only display-animation effects. -/
theorem anim_no_http (s : MonitorState) (b : Bool) :
    Effect.httpGet ∉ (animStep s b).2 := by
  simp only [animStep]; split_ifs <;> simp

/-- The animation step never attempts a reconnect. -/
theorem anim_no_reconnect (s : MonitorState) (b : Bool) :
    Effect.reconnectCall ∉ (animStep s b).2 := by
  simp only [animStep]; split_ifs <;> simp

/-- Consuming the toggle always clears the pending flag. -/
theorem hm_flag (s : MonitorState) (now : Nat) :
    (handleMuteToggle s now).1.muteToggleRequest = false := by
  simp only [handleMuteToggle]; split_ifs <;> rfl

/-- The toggle handler preserves siteIsUp. -/
theorem hm_siteIsUp (s : MonitorState) (now : Nat) :
    (handleMuteToggle s now).1.siteIsUp = s.siteIsUp := by
  simp only [handleMuteToggle]; split_ifs <;> rfl

/-- The toggle handler preserves wifiConnected. -/
theorem hm_wifi (s : MonitorState) (now : Nat) :
    (handleMuteToggle s now).1.wifiConnected = s.wifiConnected := by
  simp only [handleMuteToggle]; split_ifs <;> rfl

/-- The toggle handler preserves lastCheckTime. -/
theorem hm_lastCheck (s : MonitorState) (now : Nat) :
    (handleMuteToggle s now).1.lastCheckTime = s.lastCheckTime := by
  simp only [handleMuteToggle]; split_ifs <;> rfl

/-- The toggle handler preserves lastReconnect. -/
theorem hm_lastReconnect (s : MonitorState) (now : Nat) :
    (handleMuteToggle s now).1.lastReconnect = s.lastReconnect := by
  simp only [handleMuteToggle]; split_ifs <;> rfl

/-- The toggle handler never performs an HTTP request. -/
theorem hm_no_http (s : MonitorState) (now : Nat) :
    Effect.httpGet ∉ (handleMuteToggle s now).2 := by
  simp only [handleMuteToggle]; split_ifs <;> simp

/-- The toggle handler never attempts a reconnect. -/
theorem hm_no_reconnect (s : MonitorState) (now : Nat) :
    Effect.reconnectCall ∉ (handleMuteToggle s now).2 := by
  simp only [handleMuteToggle]; split_ifs <;> simp

/-- After the button step the pending flag is always clear. -/
theorem bs_flag (s : MonitorState) (now : Nat) :
    (buttonStep s now).1.muteToggleRequest = false := by
  simp only [buttonStep]
  split_ifs with h
  · exact hm_flag s now
  · simpa using h

/-- With no pending flag the button step does nothing. -/
theorem bs_noflag (s : MonitorState) (now : Nat) (h : s.muteToggleRequest = false) :
    buttonStep s now = (s, []) := by
  simp [buttonStep, h]

/-- The button step preserves siteIsUp. -/
theorem bs_siteIsUp (s : MonitorState) (now : Nat) :
    (buttonStep s now).1.siteIsUp = s.siteIsUp := by
  simp only [buttonStep]; split_ifs
  · exact hm_siteIsUp s now
  · rfl

/-- The button step preserves wifiConnected. -/
theorem bs_wifi (s : MonitorState) (now : Nat) :
    (buttonStep s now).1.wifiConnected = s.wifiConnected := by
  simp only [buttonStep]; split_ifs
  · exact hm_wifi s now
  · rfl

/-- The button step preserves lastCheckTime. -/
theorem bs_lastCheck (s : MonitorState) (now : Nat) :
    (buttonStep s now).1.lastCheckTime = s.lastCheckTime := by
  simp only [buttonStep]; split_ifs
  · exact hm_lastCheck s now
  · rfl

/-- The button step preserves lastReconnect. -/
theorem bs_lastReconnect (s : MonitorState) (now : Nat) :
    (buttonStep s now).1.lastReconnect = s.lastReconnect := by
  simp only [buttonStep]; split_ifs
  · exact hm_lastReconnect s now
  · rfl

/-- The button step never performs an HTTP request. -/
theorem bs_no_http (s : MonitorState) (now : Nat) :
    Effect.httpGet ∉ (buttonStep s now).2 := by
  simp only [buttonStep]; split_ifs
  · exact hm_no_http s now
  · simp

/-- The button step never attempts a reconnect. -/
theorem bs_no_reconnect (s : MonitorState) (now : Nat) :
    Effect.reconnectCall ∉ (buttonStep s now).2 := by
  simp only [buttonStep]; split_ifs
  · exact hm_no_reconnect s now
  · simp

/-- When the radio reports connected at entry, the connectivity step is a
no-op. -/
theorem cw_status_true (s : MonitorState) (now : Nat) (radio : RadioInput)
    (h : radio.status = true) : checkWiFiConnection s now radio = (s, []) := by
  simp [checkWiFiConnection, h]

/-- The connectivity step preserves isMuted. -/
theorem cw_isMuted (s : MonitorState) (now : Nat) (radio : RadioInput) :
    (checkWiFiConnection s now radio).1.isMuted = s.isMuted := by
  simp only [checkWiFiConnection]; split_ifs <;> rfl

/-- The connectivity step preserves siteIsUp. -/
theorem cw_siteIsUp (s : MonitorState) (now : Nat) (radio : RadioInput) :
    (checkWiFiConnection s now radio).1.siteIsUp = s.siteIsUp := by
  simp only [checkWiFiConnection]; split_ifs <;> rfl

/-- The connectivity step preserves messageScrolling. -/
theorem cw_ms (s : MonitorState) (now : Nat) (radio : RadioInput) :
    (checkWiFiConnection s now radio).1.messageScrolling = s.messageScrolling := by
  simp only [checkWiFiConnection]; split_ifs <;> rfl

/-- The connectivity step preserves lastCheckTime. -/
theorem cw_lastCheck (s : MonitorState) (now : Nat) (radio : RadioInput) :
    (checkWiFiConnection s now radio).1.lastCheckTime = s.lastCheckTime := by
  simp only [checkWiFiConnection]; split_ifs <;> rfl

/-- The connectivity step preserves lastButtonPress. -/
theorem cw_lastButton (s : MonitorState) (now : Nat) (radio : RadioInput) :
    (checkWiFiConnection s now radio).1.lastButtonPress = s.lastButtonPress := by
  simp only [checkWiFiConnection]; split_ifs <;> rfl

/-- The connectivity step preserves the pending-toggle flag. -/
theorem cw_flag (s : MonitorState) (now : Nat) (radio : RadioInput) :
    (checkWiFiConnection s now radio).1.muteToggleRequest = s.muteToggleRequest := by
  simp only [checkWiFiConnection]; split_ifs <;> rfl

/-- The connectivity step never performs an HTTP request. -/
theorem cw_no_http (s : MonitorState) (now : Nat) (radio : RadioInput) :
    Effect.httpGet ∉ (checkWiFiConnection s now radio).2 := by
  simp only [checkWiFiConnection, playAlertTone]
  split_ifs <;> simp

/-- A reconnect is attempted exactly when the radio is down at entry and
the reconnect interval has elapsed. -/
theorem cw_reconnect_iff (s : MonitorState) (now : Nat) (radio : RadioInput) :
    Effect.reconnectCall ∈ (checkWiFiConnection s now radio).2 ↔
      radio.status = false ∧ RECONNECT_INTERVAL ≤ elapsed s.lastReconnect now := by
  cases hst : radio.status
  · simp only [checkWiFiConnection, hst, playAlertTone]
    split_ifs <;> simp_all
  · simp [cw_status_true s now radio hst, hst]

/-- An attempted reconnect stamps lastReconnect with now. -/
theorem cw_attempt_stamps (s : MonitorState) (now : Nat) (radio : RadioInput)
    (hst : radio.status = false)
    (hint : RECONNECT_INTERVAL ≤ elapsed s.lastReconnect now) :
    (checkWiFiConnection s now radio).1.lastReconnect = now % UINT32_MOD := by
  simp only [checkWiFiConnection, hst]
  split_ifs <;> simp_all

/-- A successful reconnect marks the machine connected and ends by
silencing the alert. -/
theorem cw_success (s : MonitorState) (now : Nat) (radio : RadioInput)
    (hst : radio.status = false)
    (hint : RECONNECT_INTERVAL ≤ elapsed s.lastReconnect now)
    (haft : radio.statusAfterReconnect = true) :
    (checkWiFiConnection s now radio).1.wifiConnected = true ∧
    (checkWiFiConnection s now radio).2.getLast? = some Effect.buzzNoTone := by
  simp only [checkWiFiConnection, hst, haft, playAlertTone]
  split_ifs <;> simp_all

/-- When the radio stays down through the tick the connectivity step leaves
the machine disconnected. -/
theorem cw_wifi_false (s : MonitorState) (now : Nat) (radio : RadioInput)
    (hst : radio.status = false) (haft : radio.statusAfterReconnect = false) :
    (checkWiFiConnection s now radio).1.wifiConnected = false := by
  simp only [checkWiFiConnection, hst, haft]
  split_ifs <;> simp_all

/-- While already marked disconnected, with the interval not yet elapsed,
the connectivity step is a no-op. -/
theorem cw_quiet (s : MonitorState) (now : Nat) (radio : RadioInput)
    (hst : radio.status = false) (hw : s.wifiConnected = false)
    (hint : elapsed s.lastReconnect now < RECONNECT_INTERVAL) :
    checkWiFiConnection s now radio = (s, []) := by
  simp only [checkWiFiConnection, hst, hw]
  split_ifs <;> (try simp_all) <;> omega

/-- lastReconnect is either freshly stamped or untouched with the interval
guard false. -/
theorem cw_lastReconnect_cases (s : MonitorState) (now : Nat) (radio : RadioInput) :
    (checkWiFiConnection s now radio).1.lastReconnect = now % UINT32_MOD ∨
    ((checkWiFiConnection s now radio).1.lastReconnect = s.lastReconnect ∧
      (radio.status = true ∨ elapsed s.lastReconnect now < RECONNECT_INTERVAL)) := by
  cases hst : radio.status
  · simp only [checkWiFiConnection, hst]
    split_ifs <;> simp_all <;> omega
  · simp [cw_status_true s now radio hst]

/-- The site-check step preserves isMuted. -/
theorem scs_isMuted (s : MonitorState) (now : Nat) (ok : Bool) (code : Int) :
    (siteCheckStep s now ok code).1.isMuted = s.isMuted := by
  simp only [siteCheckStep]; split_ifs <;> rfl

/-- The site-check step preserves wifiConnected. -/
theorem scs_wifi (s : MonitorState) (now : Nat) (ok : Bool) (code : Int) :
    (siteCheckStep s now ok code).1.wifiConnected = s.wifiConnected := by
  simp only [siteCheckStep]; split_ifs <;> rfl

/-- The site-check step preserves lastReconnect. -/
theorem scs_lastReconnect (s : MonitorState) (now : Nat) (ok : Bool) (code : Int) :
    (siteCheckStep s now ok code).1.lastReconnect = s.lastReconnect := by
  simp only [siteCheckStep]; split_ifs <;> rfl

/-- The site-check step preserves lastButtonPress. -/
theorem scs_lastButton (s : MonitorState) (now : Nat) (ok : Bool) (code : Int) :
    (siteCheckStep s now ok code).1.lastButtonPress = s.lastButtonPress := by
  simp only [siteCheckStep]; split_ifs <;> rfl

/-- The site-check step preserves the pending-toggle flag. -/
theorem scs_flag (s : MonitorState) (now : Nat) (ok : Bool) (code : Int) :
    (siteCheckStep s now ok code).1.muteToggleRequest = s.muteToggleRequest := by
  simp only [siteCheckStep]; split_ifs <;> rfl

/-- The site-check step performs the HTTP request exactly when its guard
holds. -/
theorem scs_http_iff (s : MonitorState) (now : Nat) (ok : Bool) (code : Int) :
    Effect.httpGet ∈ (siteCheckStep s now ok code).2 ↔
      (s.wifiConnected && intervalPassed s.lastCheckTime now CHECK_INTERVAL) = true := by
  simp only [siteCheckStep]
  split_ifs with h <;> simp_all

/-- The site-check step never attempts a reconnect. -/
theorem scs_no_reconnect (s : MonitorState) (now : Nat) (ok : Bool) (code : Int) :
    Effect.reconnectCall ∉ (siteCheckStep s now ok code).2 := by
  simp only [siteCheckStep, playAlertTone]
  split_ifs <;> simp_all

/-- A tick is the composition of the four phases. -/
theorem tick_eq (s : MonitorState) (now : Nat) (inp : TickInput) :
    tick s now inp =
      ((siteCheckStep (afterWifi s now inp) now inp.httpBeginOk inp.httpCode).1,
       (animStep s inp.animateDone).2 ++
         (buttonStep (afterAnim s inp) now).2 ++
         (checkWiFiConnection (afterButton s now inp) now inp.radio).2 ++
         (siteCheckStep (afterWifi s now inp) now inp.httpBeginOk inp.httpCode).2) := rfl

/-- A tick performs the HTTP request exactly when the site-check guard
holds on the post-connectivity state. -/
theorem tick_http_iff (s : MonitorState) (now : Nat) (inp : TickInput) :
    Effect.httpGet ∈ (tick s now inp).2 ↔ checkGuard s now inp = true := by
  rw [tick_eq]
  simp only [List.mem_append, checkGuard]
  constructor
  · rintro (((h | h) | h) | h)
    · exact absurd h (anim_no_http s inp.animateDone)
    · exact absurd h (bs_no_http (afterAnim s inp) now)
    · exact absurd h (cw_no_http (afterButton s now inp) now inp.radio)
    · exact (scs_http_iff (afterWifi s now inp) now inp.httpBeginOk inp.httpCode).mp h
  · intro hg
    right
    exact (scs_http_iff (afterWifi s now inp) now inp.httpBeginOk inp.httpCode).mpr hg

/-- After any tick the pending-toggle flag is clear. -/
theorem tick_flag (s : MonitorState) (now : Nat) (inp : TickInput) :
    (tick s now inp).1.muteToggleRequest = false := by
  rw [tick_eq, scs_flag]
  unfold afterWifi
  rw [cw_flag]
  unfold afterButton
  exact bs_flag (afterAnim s inp) now

/-- With the timestamp just stamped, a positive interval has not passed. -/
theorem intervalPassed_self (now interval : Nat) (hpos : 0 < interval) :
    intervalPassed (now % UINT32_MOD) now interval = false := by
  simp only [intervalPassed, elapsed_self_mod, decide_eq_false_iff_not]
  omega

/-- If the radio is down at entry and stays down, the tick ends
disconnected. -/
theorem tick_wifi_false (s : MonitorState) (now : Nat) (inp : TickInput)
    (hst : inp.radio.status = false) (haft : inp.radio.statusAfterReconnect = false) :
    (tick s now inp).1.wifiConnected = false := by
  rw [tick_eq, scs_wifi]
  unfold afterWifi
  exact cw_wifi_false _ now inp.radio hst haft

/-- After a tick, lastReconnect is either freshly stamped or untouched with
the reconnect interval not yet elapsed. -/
theorem tick_lastReconnect_cases (s : MonitorState) (now : Nat) (inp : TickInput) :
    (tick s now inp).1.lastReconnect = now % UINT32_MOD ∨
    ((tick s now inp).1.lastReconnect = s.lastReconnect ∧
      (inp.radio.status = true ∨ elapsed s.lastReconnect now < RECONNECT_INTERVAL)) := by
  have hb : (afterButton s now inp).lastReconnect = s.lastReconnect := by
    unfold afterButton afterAnim
    rw [bs_lastReconnect, anim_lastReconnect]
  rw [tick_eq, scs_lastReconnect]
  unfold afterWifi
  have hc := cw_lastReconnect_cases (afterButton s now inp) now inp.radio
  rw [hb] at hc
  exact hc

/-- After a tick with the radio down at entry, the reconnect interval has
not elapsed against the new lastReconnect. -/
theorem tick_reconnect_recent (s : MonitorState) (now : Nat) (inp : TickInput)
    (hst : inp.radio.status = false) :
    elapsed (tick s now inp).1.lastReconnect now < RECONNECT_INTERVAL := by
  rcases tick_lastReconnect_cases s now inp with h | ⟨h, hor⟩
  · rw [h, elapsed_self_mod]
    decide
  · rcases hor with hst2 | hlt
    · rw [hst] at hst2
      exact absurd hst2 (by simp)
    · rw [h]
      exact hlt

/-- After a tick, lastCheckTime is either freshly stamped or untouched with
the site-check guard false. -/
theorem tick_lastCheck_cases (s : MonitorState) (now : Nat) (inp : TickInput) :
    (tick s now inp).1.lastCheckTime = now % UINT32_MOD ∨
    ((tick s now inp).1.lastCheckTime = s.lastCheckTime ∧
      ((tick s now inp).1.wifiConnected = false ∨
        intervalPassed s.lastCheckTime now CHECK_INTERVAL = false)) := by
  have hw : (afterWifi s now inp).lastCheckTime = s.lastCheckTime := by
    unfold afterWifi afterButton afterAnim
    rw [cw_lastCheck, bs_lastCheck, anim_lastCheck]
  by_cases hg : ((afterWifi s now inp).wifiConnected &&
      intervalPassed (afterWifi s now inp).lastCheckTime now CHECK_INTERVAL) = true
  · left
    rw [tick_eq]
    simp [siteCheckStep, hg]
  · right
    rw [Bool.not_eq_true] at hg
    constructor
    · rw [tick_eq]
      simp only [siteCheckStep, hg, Bool.false_eq_true, if_false]
      exact hw
    · rw [tick_eq, scs_wifi]
      cases ha : (afterWifi s now inp).wifiConnected
      · left
        rfl
      · right
        cases hbv : intervalPassed (afterWifi s now inp).lastCheckTime now CHECK_INTERVAL
        · rw [hw] at hbv
          exact hbv
        · rw [ha, hbv] at hg
          exact absurd hg (by simp)

/-- After any tick, the site-check guard evaluated on the new state at the
same timestamp is false. -/
theorem tick_check_recent (s : MonitorState) (now : Nat) (inp : TickInput) :
    (tick s now inp).1.wifiConnected = false ∨
    intervalPassed (tick s now inp).1.lastCheckTime now CHECK_INTERVAL = false := by
  rcases tick_lastCheck_cases s now inp with h | ⟨h, hor⟩
  · right
    rw [h]
    exact intervalPassed_self now CHECK_INTERVAL (by decide)
  · rcases hor with hw | hip
    · left
      exact hw
    · right
      rw [h]
      exact hip

/-! ## Claim theorems: classification -/

/-- Claim C1: for every signed 32-bit HTTP result code, the classification
yields down/ConnectionError for negative codes, up with labels
Informational, Success, Redirect, ClientError on [0,200), [200,300),
[300,400), [400,500), and down/ServerError for codes at least 500; with
the boundary cases classify(-1)=down, classify(0)=up, classify(499)=up,
classify(500)=down. -/
theorem classify_correct (code : Int) (hlo : -2147483648 ≤ code)
    (hhi : code < 2147483648) :
    (code < 0 → classify code = (false, "Connection Error")) ∧
    (0 ≤ code → code < 200 → classify code = (true, "Informational")) ∧
    (200 ≤ code → code < 300 → classify code = (true, "Success")) ∧
    (300 ≤ code → code < 400 → classify code = (true, "Redirect")) ∧
    (400 ≤ code → code < 500 → classify code = (true, "Client Error")) ∧
    (500 ≤ code → classify code = (false, "Server Error")) ∧
    classify (-1) = (false, "Connection Error") ∧
    (classify 0).1 = true ∧ (classify 499).1 = true ∧ (classify 500).1 = false := by
  refine ⟨?_, ?_, ?_, ?_, ?_, ?_, by decide, by decide, by decide, by decide⟩
  all_goals intros
  all_goals simp only [classify, isSiteUp, getStatusDescription]
  all_goals split_ifs <;> simp_all <;> omega

/-- Witness for C1 at code 250. -/
theorem classify_correct_witness :
    ((250 : Int) < 0 → classify 250 = (false, "Connection Error")) ∧
    ((0 : Int) ≤ 250 → (250 : Int) < 200 → classify 250 = (true, "Informational")) ∧
    ((200 : Int) ≤ 250 → (250 : Int) < 300 → classify 250 = (true, "Success")) ∧
    ((300 : Int) ≤ 250 → (250 : Int) < 400 → classify 250 = (true, "Redirect")) ∧
    ((400 : Int) ≤ 250 → (250 : Int) < 500 → classify 250 = (true, "Client Error")) ∧
    ((500 : Int) ≤ 250 → classify 250 = (false, "Server Error")) ∧
    classify (-1) = (false, "Connection Error") ∧
    (classify 0).1 = true ∧ (classify 499).1 = true ∧ (classify 500).1 = false :=
  classify_correct 250 (by decide) (by decide)

/-! ## Claim theorems: wraparound arithmetic -/

/-- Claim C2 counterexample: the worked example of the claim is off by one.
Since 0xFFFFFFFF is congruent to -1 mod 2^32, the wrapping subtraction
100 - (0xFFFFFFFF - 100) yields 201, not 200. -/
theorem elapsed_example_false :
    elapsed (4294967295 - 100) 100 = 201 ∧ elapsed (4294967295 - 100) 100 ≠ 200 := by
  decide

/-- Claim C2 (amended): for all true times with true elapsed below 2^32,
the wrapping unsigned subtraction of the u32 readings equals the true
elapsed time, including across numeric wraparound; the worked example
evaluates to 201. -/
theorem elapsed_correct (tStart tNow : Nat) (hle : tStart ≤ tNow)
    (hlt : tNow - tStart < UINT32_MOD) :
    elapsed (tStart % UINT32_MOD) (tNow % UINT32_MOD) = tNow - tStart ∧
    elapsed (4294967295 - 100) 100 = 201 :=
  ⟨elapsed_mod_eq tStart tNow hle hlt, by decide⟩

/-- Witness for C2 across the wraparound boundary: true times 2^32 - 101
and 2^32 + 100, whose readings are 4294967195 and 100. -/
theorem elapsed_correct_witness :
    elapsed (4294967195 % UINT32_MOD) (4294967396 % UINT32_MOD) = 4294967396 - 4294967195 ∧
    elapsed (4294967295 - 100) 100 = 201 :=
  elapsed_correct 4294967195 4294967396 (by decide) (by decide)

/-! ## Claim theorems: verdict agreement between the two firmwares -/

/-- Claim C10 counterexample: at HTTP code 0 the simple firmware verdict
(`checkSite`, `code <= 0`) is down while the optimized firmware
(`checkSiteStatus`, `code < 0`) and the test suite (`isSiteUp`) say up. -/
theorem verdict_disagreement_at_zero :
    checkSite true 0 = false ∧ checkSiteStatus true 0 = true ∧ isSiteUp 0 = true := by
  decide

/-- Claim C10 (amended): for every nonzero signed 32-bit code the simple
firmware verdict agrees with the optimized firmware and the test suite;
`checkSiteStatus` and `isSiteUp` agree on all codes, and the three differ
only at code 0. -/
theorem verdicts_agree (code : Int) (hnz : code ≠ 0) (hlo : -2147483648 ≤ code)
    (hhi : code < 2147483648) :
    checkSite true code = isSiteUp code ∧
    checkSiteStatus true code = isSiteUp code := by
  simp only [checkSite, checkSiteStatus, isSiteUp, Bool.not_true]
  constructor <;> split_ifs <;> simp_all <;> omega

/-- Witness for C10 at code 404. -/
theorem verdicts_agree_witness :
    checkSite true 404 = isSiteUp 404 ∧ checkSiteStatus true 404 = isSiteUp 404 :=
  verdicts_agree 404 (by decide) (by decide) (by decide)

/-! ## Claim theorems: interval scheduling -/

/-- Claim C3: intervalPassed is false whenever the true elapsed time is
strictly below the interval, true at exactly the interval and beyond; and
in the scheduler, from the connected state with lastCheckTime 0, a tick at
now = 30000 fires the site check exactly once (a repeated tick at 30000
does not fire again) while a tick at now = 29999 does not fire it. -/
theorem intervalPassed_correct (tLast tNow interval : Nat) (hle : tLast ≤ tNow)
    (hlt : tNow - tLast < UINT32_MOD) :
    (intervalPassed (tLast % UINT32_MOD) (tNow % UINT32_MOD) interval = true ↔
      interval ≤ tNow - tLast) ∧
    (tick connState 30000 quietInput).2.count Effect.httpGet = 1 ∧
    (tick (tick connState 30000 quietInput).1 30000 quietInput).2.count Effect.httpGet = 0 ∧
    (tick connState 29999 quietInput).2.count Effect.httpGet = 0 := by
  refine ⟨?_, by decide, by decide, by decide⟩
  simp [intervalPassed, elapsed_mod_eq tLast tNow hle hlt]

/-- Witness for C3 at the 30000 ms boundary. -/
theorem intervalPassed_correct_witness :
    (intervalPassed (0 % UINT32_MOD) (30000 % UINT32_MOD) 30000 = true ↔
      30000 ≤ 30000 - 0) ∧
    (tick connState 30000 quietInput).2.count Effect.httpGet = 1 ∧
    (tick (tick connState 30000 quietInput).1 30000 quietInput).2.count Effect.httpGet = 0 ∧
    (tick connState 29999 quietInput).2.count Effect.httpGet = 0 :=
  intervalPassed_correct 0 30000 30000 (by decide) (by decide)

/-! ## Claim theorems: debounced mute button -/

/-- Claim C4: a pending toggle consumed inside the 200 ms debounce window
only clears the flag (the bounce is dropped); consumed at or beyond 200 ms
it clears the flag, stamps lastButtonPress with now and flips isMuted.
Hence after an accepted toggle at now1, a second toggle with real-time gap
below 200 ms leaves exactly one flip, and a gap of at least 200 ms gives
two flips. -/
theorem debounce_correct (s t : MonitorState) (now now1 now2 : Nat)
    (hrej : elapsed t.lastButtonPress now < DEBOUNCE_DELAY)
    (hacc : DEBOUNCE_DELAY ≤ elapsed s.lastButtonPress now1) :
    handleMuteToggle t now = ({ t with muteToggleRequest := false }, []) ∧
    (handleMuteToggle s now1).1.muteToggleRequest = false ∧
    (handleMuteToggle s now1).1.lastButtonPress = now1 % UINT32_MOD ∧
    (handleMuteToggle s now1).1.isMuted = (!s.isMuted) ∧
    (elapsed now1 now2 < DEBOUNCE_DELAY →
      (handleMuteToggle
        { (handleMuteToggle s now1).1 with muteToggleRequest := true } now2).1.isMuted
        = (!s.isMuted)) ∧
    (DEBOUNCE_DELAY ≤ elapsed now1 now2 →
      (handleMuteToggle
        { (handleMuteToggle s now1).1 with muteToggleRequest := true } now2).1.isMuted
        = s.isMuted) := by
  have hne : ¬ elapsed s.lastButtonPress now1 < DEBOUNCE_DELAY := not_lt.mpr hacc
  refine ⟨?_, ?_, ?_, ?_, ?_, ?_⟩
  · simp [handleMuteToggle, hrej]
  · simp [handleMuteToggle, hne]
  · simp [handleMuteToggle, hne]
  · simp [handleMuteToggle, hne]
  · intro hgap
    simp [handleMuteToggle, hne, elapsed_mod_left, hgap]
  · intro hgap
    have hgap2 : ¬ elapsed now1 now2 < DEBOUNCE_DELAY := not_lt.mpr hgap
    simp [handleMuteToggle, hne, elapsed_mod_left, hgap2]

/-- Witness for C4: accepted press at 1000 after boot, bounce at 1100. -/
theorem debounce_correct_witness :
    handleMuteToggle connState 100 = ({ connState with muteToggleRequest := false }, []) ∧
    (handleMuteToggle connState 1000).1.muteToggleRequest = false ∧
    (handleMuteToggle connState 1000).1.lastButtonPress = 1000 % UINT32_MOD ∧
    (handleMuteToggle connState 1000).1.isMuted = (!connState.isMuted) ∧
    (elapsed 1000 1100 < DEBOUNCE_DELAY →
      (handleMuteToggle
        { (handleMuteToggle connState 1000).1 with muteToggleRequest := true } 1100).1.isMuted
        = (!connState.isMuted)) ∧
    (DEBOUNCE_DELAY ≤ elapsed 1000 1100 →
      (handleMuteToggle
        { (handleMuteToggle connState 1000).1 with muteToggleRequest := true } 1100).1.isMuted
        = connState.isMuted) :=
  debounce_correct connState connState 100 1000 1100 (by decide) (by decide)

/-- Claim C5: a rejected toggle changes no field of the state except
clearing the pending flag, and emits nothing; an accepted toggle performs
exactly one flip of isMuted. -/
theorem toggle_frame (s : MonitorState) (now : Nat) :
    (elapsed s.lastButtonPress now < DEBOUNCE_DELAY →
      (handleMuteToggle s now).1 = { s with muteToggleRequest := false } ∧
      (handleMuteToggle s now).2 = []) ∧
    (DEBOUNCE_DELAY ≤ elapsed s.lastButtonPress now →
      (handleMuteToggle s now).1.isMuted = (!s.isMuted)) := by
  constructor
  · intro hrej
    simp [handleMuteToggle, hrej]
  · intro hacc
    simp [handleMuteToggle, not_lt.mpr hacc]

/-- Witness for C5 at the quiescent state and now = 100. -/
theorem toggle_frame_witness :
    (elapsed connState.lastButtonPress 100 < DEBOUNCE_DELAY →
      (handleMuteToggle connState 100).1 = { connState with muteToggleRequest := false } ∧
      (handleMuteToggle connState 100).2 = []) ∧
    (DEBOUNCE_DELAY ≤ elapsed connState.lastButtonPress 100 →
      (handleMuteToggle connState 100).1.isMuted = (!connState.isMuted)) :=
  toggle_frame connState 100

/-! ## Claim theorems: WiFi reconnection -/

/-- Claim C7: while the radio reports disconnected, a reconnect attempt
fires exactly when elapsed(lastReconnect, now) reaches 60000 ms; the
attempt stamps lastReconnect with now, so two successive attempts are at
least RECONNECT_INTERVAL of elapsed time apart; and a successful re-sample
marks the machine connected and silences the alert. -/
theorem reconnect_correct (s : MonitorState) (now now2 : Nat)
    (radio radio2 : RadioInput) :
    (Effect.reconnectCall ∈ (checkWiFiConnection s now radio).2 ↔
      radio.status = false ∧ RECONNECT_INTERVAL ≤ elapsed s.lastReconnect now) ∧
    (radio.status = false → RECONNECT_INTERVAL ≤ elapsed s.lastReconnect now →
      (checkWiFiConnection s now radio).1.lastReconnect = now % UINT32_MOD) ∧
    (radio.status = false → RECONNECT_INTERVAL ≤ elapsed s.lastReconnect now →
      Effect.reconnectCall ∈
        (checkWiFiConnection (checkWiFiConnection s now radio).1 now2 radio2).2 →
      RECONNECT_INTERVAL ≤ elapsed now now2) ∧
    (radio.status = false → RECONNECT_INTERVAL ≤ elapsed s.lastReconnect now →
      radio.statusAfterReconnect = true →
      (checkWiFiConnection s now radio).1.wifiConnected = true ∧
      (checkWiFiConnection s now radio).2.getLast? = some Effect.buzzNoTone) := by
  refine ⟨cw_reconnect_iff s now radio,
          fun hst hint => cw_attempt_stamps s now radio hst hint, ?_,
          fun hst hint haft => cw_success s now radio hst hint haft⟩
  intro hst hint hmem
  have h2 := (cw_reconnect_iff _ now2 radio2).mp hmem
  rw [cw_attempt_stamps s now radio hst hint, elapsed_mod_left] at h2
  exact h2.2

/-- Witness for C7: disconnected quiescent state, attempts at 60000 and
120000. -/
theorem reconnect_correct_witness :
    (Effect.reconnectCall ∈ (checkWiFiConnection connState 60000 downUpRadio).2 ↔
      downUpRadio.status = false ∧
        RECONNECT_INTERVAL ≤ elapsed connState.lastReconnect 60000) ∧
    (downUpRadio.status = false →
      RECONNECT_INTERVAL ≤ elapsed connState.lastReconnect 60000 →
      (checkWiFiConnection connState 60000 downUpRadio).1.lastReconnect
        = 60000 % UINT32_MOD) ∧
    (downUpRadio.status = false →
      RECONNECT_INTERVAL ≤ elapsed connState.lastReconnect 60000 →
      Effect.reconnectCall ∈
        (checkWiFiConnection (checkWiFiConnection connState 60000 downUpRadio).1
          120000 downUpRadio).2 →
      RECONNECT_INTERVAL ≤ elapsed 60000 120000) ∧
    (downUpRadio.status = false →
      RECONNECT_INTERVAL ≤ elapsed connState.lastReconnect 60000 →
      downUpRadio.statusAfterReconnect = true →
      (checkWiFiConnection connState 60000 downUpRadio).1.wifiConnected = true ∧
      (checkWiFiConnection connState 60000 downUpRadio).2.getLast?
        = some Effect.buzzNoTone) :=
  reconnect_correct connState 60000 120000 downUpRadio downUpRadio

/-! ## Claim theorems: site checks and connectivity -/

/-- Claim C6 counterexample: from the reachable boot state with WiFi down,
a tick at now = 60000 whose reconnect attempt succeeds performs a site
check in that same tick, even though the tick began with
wifiConnected = false. -/
theorem disconnected_tick_checks :
    Reachable bootDisc ∧ bootDisc.wifiConnected = false ∧
    Effect.httpGet ∈ (tick bootDisc 60000 reconnectOkInput).2 :=
  ⟨Reachable.boot false 0, by decide, by decide⟩

/-- Claim C6 (amended): whenever a tick performs a site check, the
WiFi-connected state is true at the moment of the check (and after the
tick); a tick whose connectivity step leaves wifiConnected false performs
no site check.  A tick that begins disconnected can still check when its
own reconnect attempt succeeds earlier in the tick. -/
theorem siteCheck_only_when_connected (s : MonitorState) (now : Nat) (inp : TickInput)
    (h : Effect.httpGet ∈ (tick s now inp).2) :
    (tick s now inp).1.wifiConnected = true := by
  have hg := (tick_http_iff s now inp).mp h
  rw [tick_eq, scs_wifi]
  simp only [checkGuard, Bool.and_eq_true] at hg
  exact hg.1

/-- Witness for C6 (amended): the connected tick at 30000 checks and ends
connected. -/
theorem siteCheck_only_when_connected_witness :
    (tick connState 30000 quietInput).1.wifiConnected = true :=
  siteCheck_only_when_connected connState 30000 quietInput (by decide)

/-- Claim C8: after every completed site check, siteIsUp holds the verdict
and the tick ends with the alert action: the tone sounds exactly when the
verdict is down and the firmware is unmuted, and is silenced when the
verdict is up or the firmware is muted. -/
theorem siteCheck_alert (s : MonitorState) (now : Nat) (inp : TickInput)
    (hchk : Effect.httpGet ∈ (tick s now inp).2) :
    (tick s now inp).1.siteIsUp = checkSiteStatus inp.httpBeginOk inp.httpCode ∧
    (tick s now inp).2.getLast? = some
      (if checkSiteStatus inp.httpBeginOk inp.httpCode then Effect.buzzNoTone
       else if (tick s now inp).1.isMuted then Effect.buzzNoTone
       else Effect.buzzTone) := by
  have hg : checkGuard s now inp = true := (tick_http_iff s now inp).mp hchk
  rw [checkGuard] at hg
  rw [tick_eq]
  constructor
  · simp [siteCheckStep, hg]
  · rw [scs_isMuted]
    simp only [siteCheckStep, hg, if_true, playAlertTone]
    cases hv : checkSiteStatus inp.httpBeginOk inp.httpCode <;>
      cases hm : (afterWifi s now inp).isMuted <;>
        simp [hv, hm, List.getLast?_append]

/-- Witness for C8: the connected tick at 30000 with HTTP 200. -/
theorem siteCheck_alert_witness :
    (tick connState 30000 quietInput).1.siteIsUp
      = checkSiteStatus quietInput.httpBeginOk quietInput.httpCode ∧
    (tick connState 30000 quietInput).2.getLast? = some
      (if checkSiteStatus quietInput.httpBeginOk quietInput.httpCode then Effect.buzzNoTone
       else if (tick connState 30000 quietInput).1.isMuted then Effect.buzzNoTone
       else Effect.buzzTone) :=
  siteCheck_alert connState 30000 quietInput (by decide)

/-! ## Claim theorems: repeated ticks -/

/-- Claim C9 counterexample: running the tick twice at timestamp 30000 from
the connected quiescent state is not the same as running it once — the
second tick clears the messageScrolling flag raised by the first tick's
site check (and issues a display clear), so it does mutate MonitorState. -/
theorem tick_not_idempotent :
    (tick (tick connState 30000 animInput).1 30000 animInput).1 ≠
      (tick connState 30000 animInput).1 := by
  decide

/-- Claim C9 (amended): a repeated tick at the same timestamp with the
radio status unchanged performs no site check, no reconnect attempt and no
toggle, and mutates no field of MonitorState other than possibly finishing
the transient message started by the first tick (the messageScrolling
flag and the accompanying display clear). -/
theorem repeated_tick_frame (s : MonitorState) (now : Nat) (inp : TickInput)
    (hradio : inp.radio.statusAfterReconnect = inp.radio.status) :
    (tick (tick s now inp).1 now inp).1.isMuted = (tick s now inp).1.isMuted ∧
    (tick (tick s now inp).1 now inp).1.siteIsUp = (tick s now inp).1.siteIsUp ∧
    (tick (tick s now inp).1 now inp).1.wifiConnected = (tick s now inp).1.wifiConnected ∧
    (tick (tick s now inp).1 now inp).1.lastCheckTime = (tick s now inp).1.lastCheckTime ∧
    (tick (tick s now inp).1 now inp).1.lastReconnect = (tick s now inp).1.lastReconnect ∧
    (tick (tick s now inp).1 now inp).1.lastButtonPress = (tick s now inp).1.lastButtonPress ∧
    (tick (tick s now inp).1 now inp).1.muteToggleRequest = false ∧
    Effect.httpGet ∉ (tick (tick s now inp).1 now inp).2 ∧
    Effect.reconnectCall ∉ (tick (tick s now inp).1 now inp).2 := by
  have hflag : (tick s now inp).1.muteToggleRequest = false := tick_flag s now inp
  have hcheck := tick_check_recent s now inp
  have hA : (afterAnim (tick s now inp).1 inp).muteToggleRequest = false := by
    unfold afterAnim
    rw [anim_flag]
    exact hflag
  have hbs : buttonStep (afterAnim (tick s now inp).1 inp) now
      = (afterAnim (tick s now inp).1 inp, []) := bs_noflag _ now hA
  have hba : afterButton (tick s now inp).1 now inp = afterAnim (tick s now inp).1 inp := by
    unfold afterButton
    rw [hbs]
  have hcw : checkWiFiConnection (afterAnim (tick s now inp).1 inp) now inp.radio
      = (afterAnim (tick s now inp).1 inp, []) := by
    cases hst : inp.radio.status
    · apply cw_quiet _ now inp.radio hst
      · unfold afterAnim
        rw [anim_wifi]
        exact tick_wifi_false s now inp hst (by rw [hradio, hst])
      · unfold afterAnim
        rw [anim_lastReconnect]
        exact tick_reconnect_recent s now inp hst
    · exact cw_status_true _ now inp.radio hst
  have hwa : afterWifi (tick s now inp).1 now inp = afterAnim (tick s now inp).1 inp := by
    unfold afterWifi
    rw [hba, hcw]
  have hguard : ((afterWifi (tick s now inp).1 now inp).wifiConnected &&
      intervalPassed (afterWifi (tick s now inp).1 now inp).lastCheckTime now
        CHECK_INTERVAL) = false := by
    rw [hwa]
    unfold afterAnim
    rw [anim_wifi, anim_lastCheck]
    rcases hcheck with h | h
    · rw [h]
      rfl
    · rw [h]
      simp
  have hscs : siteCheckStep (afterWifi (tick s now inp).1 now inp) now
      inp.httpBeginOk inp.httpCode = (afterWifi (tick s now inp).1 now inp, []) := by
    simp only [siteCheckStep, hguard, Bool.false_eq_true, if_false]
  rw [tick_eq ((tick s now inp).1) now inp, hscs, hwa, hba, hbs, hcw]
  unfold afterAnim
  simp only [List.append_nil]
  refine ⟨anim_isMuted _ _, anim_siteIsUp _ _, anim_wifi _ _, anim_lastCheck _ _,
    anim_lastReconnect _ _, anim_lastButton _ _, ?_, ?_, ?_⟩
  · rw [anim_flag]
    exact hflag
  · exact anim_no_http _ _
  · exact anim_no_reconnect _ _

/-- Witness for C9 (amended): the connected tick at 30000 repeated. -/
theorem repeated_tick_frame_witness :
    (tick (tick connState 30000 quietInput).1 30000 quietInput).1.isMuted
      = (tick connState 30000 quietInput).1.isMuted ∧
    (tick (tick connState 30000 quietInput).1 30000 quietInput).1.siteIsUp
      = (tick connState 30000 quietInput).1.siteIsUp ∧
    (tick (tick connState 30000 quietInput).1 30000 quietInput).1.wifiConnected
      = (tick connState 30000 quietInput).1.wifiConnected ∧
    (tick (tick connState 30000 quietInput).1 30000 quietInput).1.lastCheckTime
      = (tick connState 30000 quietInput).1.lastCheckTime ∧
    (tick (tick connState 30000 quietInput).1 30000 quietInput).1.lastReconnect
      = (tick connState 30000 quietInput).1.lastReconnect ∧
    (tick (tick connState 30000 quietInput).1 30000 quietInput).1.lastButtonPress
      = (tick connState 30000 quietInput).1.lastButtonPress ∧
    (tick (tick connState 30000 quietInput).1 30000 quietInput).1.muteToggleRequest
      = false ∧
    Effect.httpGet ∉ (tick (tick connState 30000 quietInput).1 30000 quietInput).2 ∧
    Effect.reconnectCall ∉ (tick (tick connState 30000 quietInput).1 30000 quietInput).2 :=
  repeated_tick_frame connState 30000 quietInput (by decide)

end LEDPanel
